import Mathlib

/-!
Shallow embedding of `src/services/core/src/dbstorage/device_profile_storage.cpp`
(class `OHOS::DeviceProfile::DeviceProfileStorage`), a façade over an external
DistributedKv key-value store.  The collaborator (the `SingleKvStore` handle and
the `DistributedKvDataManager`) is opaque to this file; it is modelled by an
abstract interface `KvStoreIntf` (for the handle) and by a response sequence
(for repeated `GetSingleKvStore` calls during `Init`).  Locks and logging have
no observable effect in a single-threaded embedding and are elided.
-/

namespace DeviceProfile

/-- `DistributedKv::Status` values are opaque integers to this layer; the code
only compares against `Status::SUCCESS` and forwards the rest via
`static_cast<int32_t>`. -/
abbrev Status := Int

/-- `Status::SUCCESS` of the DistributedKv enum (value 0). -/
def Status.SUCCESS : Status := 0

/-- Modelled from the spec: `ERR_DP_INVALID_PARAMS` comes from
`device_profile_errors.h`, which is not part of this snippet; it is the
`InvalidArgument`/`NotInitialized` error kind of §7 (null handle, or mismatched
batch lengths).  Its concrete value is opaque; only its identity is used. -/
def ERR_DP_INVALID_PARAMS : Int := 98566147

/-- Modelled from the spec (§3): `StorageInitStatus` enum
{UNINITIALIZED, SUCCEEDED, FAILED}; the .cpp uses the constants
`INIT_SUCCEED` and `INIT_FAILED`, declared in the header that is not part of
the snippet. -/
inductive StorageInitStatus where
  | UNINITED
  | INIT_SUCCEED
  | INIT_FAILED
deriving DecidableEq, Repr

/-- Modelled from the spec (§6): the options structure (encryption, sync
policy, …) is opaque to this layer; it is stored and passed through only. -/
structure Options where
deriving DecidableEq, Repr

/-- `DistributedKv::Entry`: one key/value pair of a batch write. -/
structure Entry where
  key : String
  value : String
deriving DecidableEq, Repr

/-- The opaque store handle `kvStorePtr_` points to.  `σ` is the collaborator's
internal state; the four methods the .cpp invokes on the handle.  `Get` is a
read (status and value out-parameter); `Put`, `PutBatch` and `Delete` return a
status and the successor store state. -/
structure KvStoreIntf (σ : Type) where
  Get : σ → String → Status × String
  Put : σ → String → String → Status × σ
  PutBatch : σ → List Entry → Status × σ
  Delete : σ → String → Status × σ

/-- The mutable fields of `DeviceProfileStorage`.  `σ` is the opaque state of
the collaborator store behind `kvStorePtr_`; a null pointer is `none`.  The
callback is identified by a token (`Option Nat`), its invocation is recorded
in the event trace of `Init`. -/
structure StorageState (σ : Type) where
  appId_ : String
  storeId_ : String
  options_ : Options
  kvStorePtr_ : Option σ
  kvStoreInitCallback_ : Option Nat
  initStatus_ : StorageInitStatus
deriving DecidableEq, Repr

/-- `RETRY_TIMES_GET_KVSTORE` (line 36). -/
def RETRY_TIMES_GET_KVSTORE : Nat := 10

/-- Constructor `DeviceProfileStorage(appId, storeId)` (lines 39-43); the
remaining members start at their header defaults (null handle, null callback,
uninitialized status — modelled from the spec §3). -/
def mkDeviceProfileStorage (σ : Type) (appId storeId : String) : StorageState σ :=
  { appId_ := appId
    storeId_ := storeId
    options_ := {}
    kvStorePtr_ := none
    kvStoreInitCallback_ := none
    initStatus_ := StorageInitStatus.UNINITED }

/-- `SetOptions` (lines 45-48). -/
def SetOptions (st : StorageState σ) (options : Options) : StorageState σ :=
  { st with options_ := options }

/-- `GetInitStatus` (lines 76-79). -/
def GetInitStatus (st : StorageState σ) : StorageInitStatus :=
  st.initStatus_

/-- `RegisterKvStoreInitCallback` (lines 50-58): refuses a second registration,
otherwise stores the callback and reports success. -/
def RegisterKvStoreInitCallback (st : StorageState σ) (callback : Nat) :
    Bool × StorageState σ :=
  match st.kvStoreInitCallback_ with
  | some _ => (false, st)
  | none => (true, { st with kvStoreInitCallback_ := some callback })

/-- `GetDeviceProfile` (lines 119-137): null-handle check, then delegate to
`kvStorePtr_->Get`; the out-parameter `value` is overwritten only on
`SUCCESS`.  Returns (status cast to int32, value out-parameter, state). -/
def GetDeviceProfile (intf : KvStoreIntf σ) (st : StorageState σ)
    (key value : String) : Int × String × StorageState σ :=
  match st.kvStorePtr_ with
  | none => (ERR_DP_INVALID_PARAMS, value, st)
  | some s =>
    let r := intf.Get s key
    if r.1 ≠ Status.SUCCESS then (r.1, value, st)
    else (r.1, r.2, st)

/-- `PutDeviceProfile` (lines 139-154): null-handle check, then delegate to
`kvStorePtr_->Put` and return its status. -/
def PutDeviceProfile (intf : KvStoreIntf σ) (st : StorageState σ)
    (key value : String) : Int × StorageState σ :=
  match st.kvStorePtr_ with
  | none => (ERR_DP_INVALID_PARAMS, st)
  | some s =>
    let r := intf.Put s key value
    (r.1, { st with kvStorePtr_ := some r.2 })

/-- The entry-building loop of `PutDeviceProfileBatch` (lines 173-180):
`for i in [0, keySize): entries.push({keys[i], values[i]})`. -/
def buildEntries (keys values : List String) : List Entry :=
  (List.range keys.length).map fun i =>
    { key := keys.getD i "", value := values.getD i "" }

/-- `PutDeviceProfileBatch` (lines 156-187): null-handle check, length check,
then one `kvStorePtr_->PutBatch` on the entries built in input order. -/
def PutDeviceProfileBatch (intf : KvStoreIntf σ) (st : StorageState σ)
    (keys values : List String) : Int × StorageState σ :=
  match st.kvStorePtr_ with
  | none => (ERR_DP_INVALID_PARAMS, st)
  | some s =>
    if keys.length ≠ values.length then (ERR_DP_INVALID_PARAMS, st)
    else
      let r := intf.PutBatch s (buildEntries keys values)
      (r.1, { st with kvStorePtr_ := some r.2 })

/-- `DeleteDeviceProfile` (lines 189-201): null-handle check, then delegate to
`kvStorePtr_->Delete` and return its status. -/
def DeleteDeviceProfile (intf : KvStoreIntf σ) (st : StorageState σ)
    (key : String) : Int × StorageState σ :=
  match st.kvStorePtr_ with
  | none => (ERR_DP_INVALID_PARAMS, st)
  | some s =>
    let r := intf.Delete s key
    (r.1, { st with kvStorePtr_ := some r.2 })

/-- Observable events of `Init`, in program order: an `initStatus_`
assignment, or the invocation of the registered callback (tagged with the
value of `initStatus_` at the moment of invocation). -/
inductive InitEvent where
  | setInitStatus (s : StorageInitStatus)
  | callbackInvoked (statusAtCall : StorageInitStatus)
deriving DecidableEq, Repr

/-- `GetKvStore` (lines 99-109): one call to
`dataManager_.GetSingleKvStore(options_, appId_, storeId_, kvStorePtr_)`.
The opaque data manager is modelled by its response sequence
`f : Nat → Status × Option σ`: `f n` is the status returned by the `n`-th
call and the value the out-parameter `kvStorePtr_` holds after it. -/
def GetKvStore (f : Nat → Status × Option σ) (n : Nat) : Status × Option σ :=
  f n

/-- The `while (retryTimes < RETRY_TIMES_GET_KVSTORE)` loop of
`TryGetKvStore` (lines 83-91), with `fuel = RETRY_TIMES_GET_KVSTORE -
retryTimes` iterations left.  Returns the final `kvStorePtr_`, whether the
loop returned `true` early (a call gave `SUCCESS` with a non-null handle),
and the number of `GetKvStore` calls made. -/
def tryGetKvStoreLoop (f : Nat → Status × Option σ) :
    Nat → Nat → Option σ → Option σ × Bool × Nat
  | _, 0, ptr => (ptr, false, 0)
  | retryTimes, fuel + 1, _ =>
    let r := GetKvStore f retryTimes
    if r.1 = Status.SUCCESS ∧ r.2.isSome then (r.2, true, 1)
    else
      let rest := tryGetKvStoreLoop f (retryTimes + 1) fuel r.2
      (rest.1, rest.2.1, rest.2.2 + 1)

/-- Outcome of `TryGetKvStore`: the updated storage state, the returned
Bool, the number of `GetKvStore` calls, and the `initStatus_` assignments
it performed. -/
structure TryGetResult (σ : Type) where
  state : StorageState σ
  result : Bool
  calls : Nat
  trace : List InitEvent
deriving DecidableEq, Repr

/-- `TryGetKvStore` (lines 81-97): run the retry loop; if after it
`kvStorePtr_` is still null, set `initStatus_ := INIT_FAILED` and return
false, otherwise return true. -/
def TryGetKvStore (f : Nat → Status × Option σ) (st : StorageState σ) :
    TryGetResult σ :=
  let r := tryGetKvStoreLoop f 0 RETRY_TIMES_GET_KVSTORE st.kvStorePtr_
  if r.2.1 then
    { state := { st with kvStorePtr_ := r.1 }, result := true,
      calls := r.2.2, trace := [] }
  else if r.1.isNone then
    { state := { st with kvStorePtr_ := r.1,
                         initStatus_ := StorageInitStatus.INIT_FAILED },
      result := false, calls := r.2.2,
      trace := [InitEvent.setInitStatus StorageInitStatus.INIT_FAILED] }
  else
    { state := { st with kvStorePtr_ := r.1 }, result := true,
      calls := r.2.2, trace := [] }

/-- `Init` (lines 60-74): `TryGetKvStore` under the write lock, then — after
releasing the lock — invoke the registered callback if any ("must call
callback before set init status"), then assign
`initStatus_ := INIT_SUCCEED` unconditionally.  Returns the final state and
the event trace. -/
def Init (f : Nat → Status × Option σ) (st : StorageState σ) :
    StorageState σ × List InitEvent :=
  let r := TryGetKvStore f st
  let tr :=
    match r.state.kvStoreInitCallback_ with
    | some _ => r.trace ++ [InitEvent.callbackInvoked r.state.initStatus_]
    | none => r.trace
  ({ r.state with initStatus_ := StorageInitStatus.INIT_SUCCEED },
   tr ++ [InitEvent.setInitStatus StorageInitStatus.INIT_SUCCEED])

/-- `DeleteKvStore` (lines 111-117): asks the data manager to delete the
store, logs on failure and discards the status; it never touches
`kvStorePtr_` or `initStatus_`.  `deleteStatus` is the collaborator's
response to `dataManager_.DeleteKvStore(appId_, storeId_)`. -/
def DeleteKvStore (deleteStatus : Status) (st : StorageState σ) :
    StorageState σ :=
  let _ := deleteStatus
  st

/-! ### A concrete collaborator: the store as a key-value map

Modelled from the spec (§6, §8): the underlying store is a key-value map with
unique keys; `Get` on an absent key yields a NotFound-equivalent status,
writes succeed, and a batch applies its entries in order. -/

/-- Modelled from the spec (§8): a NotFound-equivalent collaborator status,
distinct from `SUCCESS`; its concrete value is opaque. -/
def Status.NOT_FOUND : Status := 27

/-- Lookup in an association-list map. -/
def findValue : List (String × String) → String → Option String
  | [], _ => none
  | (k', v') :: rest, k => if k' = k then some v' else findValue rest k

/-- Insert-or-overwrite in an association-list map (keys stay unique). -/
def insertKV : List (String × String) → String → String → List (String × String)
  | [], k, v => [(k, v)]
  | (k', v') :: rest, k, v =>
    if k' = k then (k, v) :: rest else (k', v') :: insertKV rest k v

/-- Removal from an association-list map. -/
def removeKV : List (String × String) → String → List (String × String)
  | [], _ => []
  | (k', v') :: rest, k =>
    if k' = k then removeKV rest k else (k', v') :: removeKV rest k

/-- The collaborator store realized as a key-value map (spec §6/§8): reads
report `SUCCESS` with the stored value or `NOT_FOUND`; writes always succeed;
a batch applies its entries in order (a later entry overrides an earlier one
with the same key). -/
def mapKvStore : KvStoreIntf (List (String × String)) where
  Get := fun m k =>
    match findValue m k with
    | some v => (Status.SUCCESS, v)
    | none => (Status.NOT_FOUND, "")
  Put := fun m k v => (Status.SUCCESS, insertKV m k v)
  PutBatch := fun m es =>
    (Status.SUCCESS, es.foldl (fun m e => insertKV m e.key e.value) m)
  Delete := fun m k => (Status.SUCCESS, removeKV m k)

/-! ### Sample states used by witnesses -/

/-- A storage state whose handle points at the map-model store `m`. -/
def sampleState (m : List (String × String)) :
    StorageState (List (String × String)) :=
  { mkDeviceProfileStorage (List (String × String)) "app" "store" with
      kvStorePtr_ := some m }

/-- A sample data-manager response sequence: the first two acquisition
attempts fail, the third returns `SUCCESS` with a live handle. -/
def sampleResponses : Nat → Status × Option Unit := fun n =>
  if n = 2 then (Status.SUCCESS, some ()) else (Status.NOT_FOUND, none)

/-! ### Helper lemmas -/

theorem tryGetKvStoreLoop_calls_le {σ : Type} (f : Nat → Status × Option σ) :
    ∀ fuel r ptr, (tryGetKvStoreLoop f r fuel ptr).2.2 ≤ fuel := by
  intro fuel
  induction fuel with
  | zero => intro r ptr; simp [tryGetKvStoreLoop]
  | succ n ih =>
    intro r ptr
    simp only [tryGetKvStoreLoop]
    split
    · simp
    · exact Nat.succ_le_succ (ih (r + 1) (GetKvStore f r).2)

theorem tryGetKvStoreLoop_first_success {σ : Type}
    (f : Nat → Status × Option σ) :
    ∀ fuel r i ptr, i < fuel →
      (f (r + i)).1 = Status.SUCCESS → ((f (r + i)).2).isSome = true →
      (∀ j, j < i →
        ¬((f (r + j)).1 = Status.SUCCESS ∧ ((f (r + j)).2).isSome = true)) →
      tryGetKvStoreLoop f r fuel ptr = ((f (r + i)).2, true, i + 1) := by
  intro fuel
  induction fuel with
  | zero => intro r i ptr hi; exact absurd hi (Nat.not_lt_zero i)
  | succ n ih =>
    intro r i ptr hi hst hsm hfirst
    cases i with
    | zero =>
      have hc : (GetKvStore f r).1 = Status.SUCCESS ∧
          ((GetKvStore f r).2).isSome = true := ⟨hst, hsm⟩
      simp only [tryGetKvStoreLoop]
      rw [if_pos hc]
      rfl
    | succ i' =>
      have hc : ¬((GetKvStore f r).1 = Status.SUCCESS ∧
          ((GetKvStore f r).2).isSome = true) := hfirst 0 (Nat.succ_pos i')
      have harith : r + 1 + i' = r + (i' + 1) := by omega
      have ih' := ih (r + 1) i' (GetKvStore f r).2
        (Nat.lt_of_succ_lt_succ hi)
        (by rw [harith]; exact hst) (by rw [harith]; exact hsm)
        (fun j hj => by
          have := hfirst (j + 1) (Nat.succ_lt_succ hj)
          rwa [show r + (j + 1) = r + 1 + j by omega] at this)
      simp only [tryGetKvStoreLoop]
      rw [if_neg hc, ih', harith]

theorem tryGetKvStoreLoop_all_fail {σ : Type} (f : Nat → Status × Option σ) :
    ∀ fuel r ptr,
      (∀ j, j < fuel →
        ¬((f (r + j)).1 = Status.SUCCESS ∧ ((f (r + j)).2).isSome = true)) →
      (tryGetKvStoreLoop f r fuel ptr).2.1 = false ∧
      (tryGetKvStoreLoop f r fuel ptr).2.2 = fuel := by
  intro fuel
  induction fuel with
  | zero => intro r ptr _; exact ⟨rfl, rfl⟩
  | succ n ih =>
    intro r ptr hfail
    have hc : ¬((GetKvStore f r).1 = Status.SUCCESS ∧
        ((GetKvStore f r).2).isSome = true) := hfail 0 (Nat.succ_pos n)
    have ih' := ih (r + 1) (GetKvStore f r).2 (fun j hj => by
      have := hfail (j + 1) (Nat.succ_lt_succ hj)
      rwa [show r + (j + 1) = r + 1 + j by omega] at this)
    simp only [tryGetKvStoreLoop]
    rw [if_neg hc]
    exact ⟨ih'.1, by rw [ih'.2]⟩

theorem tryGetKvStore_calls_eq {σ : Type} (f : Nat → Status × Option σ)
    (st : StorageState σ) :
    (TryGetKvStore f st).calls =
      (tryGetKvStoreLoop f 0 RETRY_TIMES_GET_KVSTORE st.kvStorePtr_).2.2 := by
  simp only [TryGetKvStore]
  split
  · rfl
  · split <;> rfl

theorem tryGetKvStore_callback_eq {σ : Type} (f : Nat → Status × Option σ)
    (st : StorageState σ) :
    (TryGetKvStore f st).state.kvStoreInitCallback_ =
      st.kvStoreInitCallback_ := by
  simp only [TryGetKvStore]
  split
  · rfl
  · split <;> rfl

theorem tryGetKvStore_status_cases {σ : Type} (f : Nat → Status × Option σ)
    (st : StorageState σ) :
    (TryGetKvStore f st).state.initStatus_ = st.initStatus_ ∨
    (TryGetKvStore f st).state.initStatus_ =
      StorageInitStatus.INIT_FAILED := by
  simp only [TryGetKvStore]
  split
  · exact Or.inl rfl
  · split
    · exact Or.inr rfl
    · exact Or.inl rfl

theorem tryGetKvStore_trace_cases {σ : Type} (f : Nat → Status × Option σ)
    (st : StorageState σ) :
    (TryGetKvStore f st).trace = [] ∨
    (TryGetKvStore f st).trace =
      [InitEvent.setInitStatus StorageInitStatus.INIT_FAILED] := by
  simp only [TryGetKvStore]
  split
  · exact Or.inl rfl
  · split
    · exact Or.inr rfl
    · exact Or.inl rfl

/-! ### Theorems -/

/-- C1: after `Init` returns, `GetInitStatus()` is `INIT_SUCCEED` for every
collaborator behaviour and every starting state — including when all
handle-acquisition retries are exhausted and the handle stays null: the
`INIT_FAILED` marker set inside `TryGetKvStore` is overwritten by the final
unconditional `initStatus_ = INIT_SUCCEED` assignment. -/
theorem init_sets_succeed {σ : Type} (f : Nat → Status × Option σ)
    (st : StorageState σ) :
    GetInitStatus (Init f st).1 = StorageInitStatus.INIT_SUCCEED := rfl

/-- C2: with a null store handle, `GetDeviceProfile`, `PutDeviceProfile` and
`DeleteDeviceProfile` each fail immediately with `ERR_DP_INVALID_PARAMS`,
leave the storage state (hence the store) unchanged, and leave the `value`
out-parameter untouched — for every collaborator interface, so no store
operation is ever invoked. -/
theorem null_handle_ops_fail {σ : Type} (intf : KvStoreIntf σ)
    (st : StorageState σ) (key value : String)
    (h : st.kvStorePtr_ = none) :
    GetDeviceProfile intf st key value = (ERR_DP_INVALID_PARAMS, value, st) ∧
    PutDeviceProfile intf st key value = (ERR_DP_INVALID_PARAMS, st) ∧
    DeleteDeviceProfile intf st key = (ERR_DP_INVALID_PARAMS, st) := by
  refine ⟨?_, ?_, ?_⟩ <;>
    simp [GetDeviceProfile, PutDeviceProfile, DeleteDeviceProfile, h]

theorem null_handle_ops_fail_witness :
    GetDeviceProfile mapKvStore
        (mkDeviceProfileStorage (List (String × String)) "app" "store")
        "k" "v" =
      (ERR_DP_INVALID_PARAMS, "v",
       mkDeviceProfileStorage (List (String × String)) "app" "store") ∧
    PutDeviceProfile mapKvStore
        (mkDeviceProfileStorage (List (String × String)) "app" "store")
        "k" "v" =
      (ERR_DP_INVALID_PARAMS,
       mkDeviceProfileStorage (List (String × String)) "app" "store") ∧
    DeleteDeviceProfile mapKvStore
        (mkDeviceProfileStorage (List (String × String)) "app" "store")
        "k" =
      (ERR_DP_INVALID_PARAMS,
       mkDeviceProfileStorage (List (String × String)) "app" "store") :=
  null_handle_ops_fail mapKvStore
    (mkDeviceProfileStorage (List (String × String)) "app" "store") "k" "v" rfl

/-- C3: whenever `keys` and `values` have different lengths,
`PutDeviceProfileBatch` returns `ERR_DP_INVALID_PARAMS` and leaves the
storage state unchanged, for every collaborator interface — the underlying
`PutBatch` is never invoked and the store contents are untouched. -/
theorem putBatch_mismatch_no_write {σ : Type} (intf : KvStoreIntf σ)
    (st : StorageState σ) (keys values : List String)
    (h : keys.length ≠ values.length) :
    PutDeviceProfileBatch intf st keys values = (ERR_DP_INVALID_PARAMS, st) := by
  unfold PutDeviceProfileBatch
  cases hp : st.kvStorePtr_ with
  | none => rfl
  | some s => simp [h]

theorem putBatch_mismatch_no_write_witness :
    PutDeviceProfileBatch mapKvStore (sampleState []) ["a", "b"] ["x"] =
      (ERR_DP_INVALID_PARAMS, sampleState []) :=
  putBatch_mismatch_no_write mapKvStore (sampleState []) ["a", "b"] ["x"]
    (by decide)

/-- C4: `RegisterKvStoreInitCallback` stores the callback and returns true
when the slot is empty; when a callback `c` is already registered, it
returns false and the slot still holds `c` — at most one callback is ever
set. -/
theorem register_callback_one_shot {σ : Type} (st : StorageState σ)
    (cb : Nat) :
    (st.kvStoreInitCallback_ = none →
      RegisterKvStoreInitCallback st cb =
        (true, { st with kvStoreInitCallback_ := some cb })) ∧
    (∀ c, st.kvStoreInitCallback_ = some c →
      RegisterKvStoreInitCallback st cb = (false, st) ∧
      (RegisterKvStoreInitCallback st cb).2.kvStoreInitCallback_ = some c) := by
  constructor
  · intro h
    simp [RegisterKvStoreInitCallback, h]
  · intro c h
    simp [RegisterKvStoreInitCallback, h]

theorem register_callback_one_shot_witness :
    RegisterKvStoreInitCallback
        (mkDeviceProfileStorage (List (String × String)) "app" "store") 5 =
      (true, { mkDeviceProfileStorage (List (String × String)) "app" "store"
                 with kvStoreInitCallback_ := some 5 }) ∧
    RegisterKvStoreInitCallback
        { mkDeviceProfileStorage (List (String × String)) "app" "store"
            with kvStoreInitCallback_ := some 5 } 6 =
      (false, { mkDeviceProfileStorage (List (String × String)) "app" "store"
                  with kvStoreInitCallback_ := some 5 }) ∧
    (RegisterKvStoreInitCallback
        { mkDeviceProfileStorage (List (String × String)) "app" "store"
            with kvStoreInitCallback_ := some 5 } 6).2.kvStoreInitCallback_ =
      some 5 :=
  ⟨(register_callback_one_shot
      (mkDeviceProfileStorage (List (String × String)) "app" "store") 5).1 rfl,
   ((register_callback_one_shot
      { mkDeviceProfileStorage (List (String × String)) "app" "store"
          with kvStoreInitCallback_ := some 5 } 6).2 5 rfl).1,
   ((register_callback_one_shot
      { mkDeviceProfileStorage (List (String × String)) "app" "store"
          with kvStoreInitCallback_ := some 5 } 6).2 5 rfl).2⟩

/-- C9: `GetDeviceProfile` writes its `value` out-parameter only when the
underlying store's `Get` returns `SUCCESS`: on a null handle or on any
non-`SUCCESS` store status the caller-supplied value is returned unchanged,
and on `SUCCESS` it is exactly the store's value. -/
theorem get_value_frame {σ : Type} (intf : KvStoreIntf σ)
    (st : StorageState σ) (key value : String) :
    (st.kvStorePtr_ = none →
      (GetDeviceProfile intf st key value).2.1 = value) ∧
    (∀ s, st.kvStorePtr_ = some s → (intf.Get s key).1 ≠ Status.SUCCESS →
      (GetDeviceProfile intf st key value).2.1 = value) ∧
    (∀ s, st.kvStorePtr_ = some s → (intf.Get s key).1 = Status.SUCCESS →
      (GetDeviceProfile intf st key value).2.1 = (intf.Get s key).2) := by
  refine ⟨fun h => ?_, fun s h hs => ?_, fun s h hs => ?_⟩
  · simp [GetDeviceProfile, h]
  · simp [GetDeviceProfile, h, hs]
  · simp [GetDeviceProfile, h, hs]

theorem get_value_frame_witness :
    (GetDeviceProfile mapKvStore (sampleState []) "k" "orig").2.1 = "orig" :=
  (get_value_frame mapKvStore (sampleState []) "k" "orig").2.1 [] rfl
    (by decide)

/-- C10: `DeleteKvStore` leaves the whole storage state — in particular the
handle and `initStatus_` — unchanged whatever status the collaborator's
`DeleteKvStore` returns (the status is discarded), so subsequent
get/put/delete calls with a previously non-null handle do not fail the
null-handle check but delegate to the now-deleted store, returning its
status. -/
theorem deleteKvStore_frame {σ : Type} (deleteStatus : Status)
    (intf : KvStoreIntf σ) (st : StorageState σ) (key value : String) :
    DeleteKvStore deleteStatus st = st ∧
    (∀ status', DeleteKvStore deleteStatus st = DeleteKvStore status' st) ∧
    (∀ s, st.kvStorePtr_ = some s →
      (GetDeviceProfile intf (DeleteKvStore deleteStatus st) key value).1 =
        (intf.Get s key).1 ∧
      (PutDeviceProfile intf (DeleteKvStore deleteStatus st) key value).1 =
        (intf.Put s key value).1 ∧
      (DeleteDeviceProfile intf (DeleteKvStore deleteStatus st) key).1 =
        (intf.Delete s key).1) := by
  refine ⟨rfl, fun _ => rfl, fun s h => ⟨?_, ?_, ?_⟩⟩
  · simp only [DeleteKvStore, GetDeviceProfile, h]
    split <;> rfl
  · simp [DeleteKvStore, PutDeviceProfile, h]
  · simp [DeleteKvStore, DeleteDeviceProfile, h]

theorem deleteKvStore_frame_witness :
    (GetDeviceProfile mapKvStore
        (DeleteKvStore Status.NOT_FOUND (sampleState [("k", "v")])) "k" "").1 =
      (mapKvStore.Get [("k", "v")] "k").1 :=
  ((deleteKvStore_frame Status.NOT_FOUND mapKvStore (sampleState [("k", "v")])
      "k" "").2.2 [("k", "v")] rfl).1

/-- C5: during `Init`, a registered callback is invoked exactly once, before
the `initStatus_ = INIT_SUCCEED` assignment: the event trace ends with the
single callback invocation followed by the `INIT_SUCCEED` assignment, no
earlier event is a callback invocation, and at the moment of invocation
`initStatus_` is not yet `INIT_SUCCEED`. -/
theorem init_callback_before_succeed {σ : Type} (f : Nat → Status × Option σ)
    (st : StorageState σ) (c : Nat)
    (hcb : st.kvStoreInitCallback_ = some c)
    (hst : st.initStatus_ ≠ StorageInitStatus.INIT_SUCCEED) :
    ∃ tr₀ s₀,
      (Init f st).2 =
        tr₀ ++ [InitEvent.callbackInvoked s₀,
                InitEvent.setInitStatus StorageInitStatus.INIT_SUCCEED] ∧
      s₀ ≠ StorageInitStatus.INIT_SUCCEED ∧
      (∀ e ∈ tr₀, ∀ s', e ≠ InitEvent.callbackInvoked s') := by
  refine ⟨(TryGetKvStore f st).trace, (TryGetKvStore f st).state.initStatus_,
    ?_, ?_, ?_⟩
  · have h1 : (TryGetKvStore f st).state.kvStoreInitCallback_ = some c := by
      rw [tryGetKvStore_callback_eq]; exact hcb
    simp [Init, h1]
  · rcases tryGetKvStore_status_cases f st with h | h <;> rw [h]
    · exact hst
    · simp
  · rcases tryGetKvStore_trace_cases f st with h | h <;> rw [h] <;> simp

theorem init_callback_before_succeed_witness :
    ∃ tr₀ s₀,
      (Init sampleResponses
          { mkDeviceProfileStorage Unit "app" "store" with
              kvStoreInitCallback_ := some 7 }).2 =
        tr₀ ++ [InitEvent.callbackInvoked s₀,
                InitEvent.setInitStatus StorageInitStatus.INIT_SUCCEED] ∧
      s₀ ≠ StorageInitStatus.INIT_SUCCEED ∧
      (∀ e ∈ tr₀, ∀ s', e ≠ InitEvent.callbackInvoked s') :=
  init_callback_before_succeed sampleResponses
    { mkDeviceProfileStorage Unit "app" "store" with
        kvStoreInitCallback_ := some 7 } 7 rfl (by decide)

/-- C6: the handle-acquisition loop of `Init` terminates for every
collaborator behaviour: `TryGetKvStore` makes at most
`RETRY_TIMES_GET_KVSTORE = 10` acquisition calls; if attempt `i` is the
first to return `SUCCESS` with a non-null handle, it returns `true` after
exactly `i + 1` calls; and when every attempt fails it stops after exactly
10 calls instead of hanging. -/
theorem tryGetKvStore_bounded_attempts {σ : Type}
    (f : Nat → Status × Option σ) (st : StorageState σ) :
    (TryGetKvStore f st).calls ≤ RETRY_TIMES_GET_KVSTORE ∧
    (∀ i, i < RETRY_TIMES_GET_KVSTORE →
      (f i).1 = Status.SUCCESS → ((f i).2).isSome = true →
      (∀ j, j < i →
        ¬((f j).1 = Status.SUCCESS ∧ ((f j).2).isSome = true)) →
      (TryGetKvStore f st).result = true ∧
      (TryGetKvStore f st).calls = i + 1) ∧
    ((∀ j, j < RETRY_TIMES_GET_KVSTORE →
        ¬((f j).1 = Status.SUCCESS ∧ ((f j).2).isSome = true)) →
      (TryGetKvStore f st).calls = RETRY_TIMES_GET_KVSTORE) := by
  refine ⟨?_, ?_, ?_⟩
  · rw [tryGetKvStore_calls_eq]
    exact tryGetKvStoreLoop_calls_le f RETRY_TIMES_GET_KVSTORE 0 st.kvStorePtr_
  · intro i hi hst hsm hfirst
    have hl := tryGetKvStoreLoop_first_success f RETRY_TIMES_GET_KVSTORE 0 i
      st.kvStorePtr_ hi
      (by rw [Nat.zero_add]; exact hst) (by rw [Nat.zero_add]; exact hsm)
      (fun j hj => by rw [Nat.zero_add]; exact hfirst j hj)
    constructor
    · simp [TryGetKvStore, hl]
    · simp [TryGetKvStore, hl]
  · intro hfail
    have hl := tryGetKvStoreLoop_all_fail f RETRY_TIMES_GET_KVSTORE 0
      st.kvStorePtr_ (fun j hj => by rw [Nat.zero_add]; exact hfail j hj)
    rw [tryGetKvStore_calls_eq]
    exact hl.2

theorem tryGetKvStore_bounded_attempts_witness :
    (TryGetKvStore sampleResponses
        (mkDeviceProfileStorage Unit "app" "store")).result = true ∧
    (TryGetKvStore sampleResponses
        (mkDeviceProfileStorage Unit "app" "store")).calls = 3 :=
  (tryGetKvStore_bounded_attempts sampleResponses
      (mkDeviceProfileStorage Unit "app" "store")).2.1 2 (by decide)
    (by decide) (by decide) (by decide)

theorem buildEntries_length (keys values : List String) :
    (buildEntries keys values).length = keys.length := by
  simp [buildEntries]

theorem buildEntries_getD (keys values : List String) (i : Nat)
    (h : i < keys.length) :
    (buildEntries keys values).getD i { key := "", value := "" } =
      { key := keys.getD i "", value := values.getD i "" } := by
  simp [buildEntries, List.getD_eq_getElem?_getD, List.getElem?_map,
    List.getElem?_range, h]

/-- C7: with a non-null handle and equal-length inputs,
`PutDeviceProfileBatch` hands the store's `PutBatch` the entry list that has
one entry per key, in input order, entry `i` carrying `keys[i]` and
`values[i]`, and returns that single batch call's status and successor
store. -/
theorem putBatch_preserves_order {σ : Type} (intf : KvStoreIntf σ)
    (st : StorageState σ) (s : σ) (keys values : List String)
    (hptr : st.kvStorePtr_ = some s) (hlen : keys.length = values.length) :
    (buildEntries keys values).length = keys.length ∧
    (∀ i, i < keys.length →
      (buildEntries keys values).getD i { key := "", value := "" } =
        { key := keys.getD i "", value := values.getD i "" }) ∧
    PutDeviceProfileBatch intf st keys values =
      ((intf.PutBatch s (buildEntries keys values)).1,
       { st with
           kvStorePtr_ :=
             some (intf.PutBatch s (buildEntries keys values)).2 }) := by
  refine ⟨buildEntries_length keys values,
    fun i hi => buildEntries_getD keys values i hi, ?_⟩
  simp [PutDeviceProfileBatch, hptr, hlen]

theorem putBatch_preserves_order_witness :
    PutDeviceProfileBatch mapKvStore (sampleState []) ["a", "b"] ["x", "y"] =
      ((mapKvStore.PutBatch [] (buildEntries ["a", "b"] ["x", "y"])).1,
       { sampleState [] with
           kvStorePtr_ :=
             some (mapKvStore.PutBatch []
               (buildEntries ["a", "b"] ["x", "y"])).2 }) :=
  (putBatch_preserves_order mapKvStore (sampleState []) [] ["a", "b"]
    ["x", "y"] rfl rfl).2.2

theorem findValue_insertKV_self (m : List (String × String))
    (k v : String) : findValue (insertKV m k v) k = some v := by
  induction m with
  | nil => simp [insertKV, findValue]
  | cons p rest ih =>
    by_cases h : p.1 = k
    · simp [insertKV, findValue, h]
    · simp [insertKV, findValue, h, ih]

theorem findValue_insertKV_of_ne (m : List (String × String))
    (k v k' : String) (h : k' ≠ k) :
    findValue (insertKV m k v) k' = findValue m k' := by
  have hkk : ¬(k = k') := fun hh => h hh.symm
  induction m with
  | nil => simp [insertKV, findValue, hkk]
  | cons p rest ih =>
    by_cases hp : p.1 = k
    · have hp' : ¬(p.1 = k') := by rw [hp]; exact hkk
      simp [insertKV, findValue, hp, hp', hkk]
    · by_cases hq : p.1 = k'
      · simp [insertKV, findValue, hp, hq, h, hkk]
      · simp [insertKV, findValue, hp, hq, ih]

/-- C8 as stated is refuted when the two batch keys coincide: with the
collaborator modeled as a key-value map, `putBatch(["a","a"], ["x","y"])`
stores a single value for `"a"` (the later entry wins), so the subsequent
`get("a")` cannot return both `"x"` and `"y"`. -/
theorem put_get_roundtrip_cex :
    ¬((GetDeviceProfile mapKvStore
          (PutDeviceProfileBatch mapKvStore (sampleState [])
            ["a", "a"] ["x", "y"]).2 "a" "").2.1 = "x" ∧
      (GetDeviceProfile mapKvStore
          (PutDeviceProfileBatch mapKvStore (sampleState [])
            ["a", "a"] ["x", "y"]).2 "a" "").2.1 = "y") := by
  decide

/-- C8 (amended: the two batch keys must be distinct): with the collaborator
store modeled as a key-value map and a non-null handle, `put(k, v)` followed
by `get(k)` succeeds and returns exactly `v`; and for `k1 ≠ k2`,
`putBatch([k1,k2], [v1,v2])` followed by `get(k1)` and `get(k2)` succeeds
and returns `v1` and `v2` respectively. -/
theorem put_get_roundtrip (st : StorageState (List (String × String)))
    (m : List (String × String)) (hptr : st.kvStorePtr_ = some m)
    (k v out k1 k2 v1 v2 : String) :
    ((PutDeviceProfile mapKvStore st k v).1 = Status.SUCCESS ∧
      GetDeviceProfile mapKvStore (PutDeviceProfile mapKvStore st k v).2
          k out =
        (Status.SUCCESS, v, (PutDeviceProfile mapKvStore st k v).2)) ∧
    (k1 ≠ k2 →
      (PutDeviceProfileBatch mapKvStore st [k1, k2] [v1, v2]).1 =
        Status.SUCCESS ∧
      (GetDeviceProfile mapKvStore
          (PutDeviceProfileBatch mapKvStore st [k1, k2] [v1, v2]).2
          k1 out).1 = Status.SUCCESS ∧
      (GetDeviceProfile mapKvStore
          (PutDeviceProfileBatch mapKvStore st [k1, k2] [v1, v2]).2
          k1 out).2.1 = v1 ∧
      (GetDeviceProfile mapKvStore
          (PutDeviceProfileBatch mapKvStore st [k1, k2] [v1, v2]).2
          k2 out).1 = Status.SUCCESS ∧
      (GetDeviceProfile mapKvStore
          (PutDeviceProfileBatch mapKvStore st [k1, k2] [v1, v2]).2
          k2 out).2.1 = v2) := by
  have hb : buildEntries [k1, k2] [v1, v2] =
      [{ key := k1, value := v1 }, { key := k2, value := v2 }] := rfl
  constructor
  · constructor
    · simp [PutDeviceProfile, mapKvStore, hptr]
    · simp [PutDeviceProfile, GetDeviceProfile, mapKvStore, hptr,
        findValue_insertKV_self]
  · intro hne
    have h2 : findValue (insertKV (insertKV m k1 v1) k2 v2) k2 = some v2 :=
      findValue_insertKV_self (insertKV m k1 v1) k2 v2
    have h1 : findValue (insertKV (insertKV m k1 v1) k2 v2) k1 = some v1 := by
      rw [findValue_insertKV_of_ne (insertKV m k1 v1) k2 v2 k1 hne]
      exact findValue_insertKV_self m k1 v1
    refine ⟨?_, ?_, ?_, ?_, ?_⟩ <;>
      simp [PutDeviceProfileBatch, GetDeviceProfile, mapKvStore, hptr, hb,
        h1, h2]

theorem put_get_roundtrip_witness :
    (GetDeviceProfile mapKvStore
        (PutDeviceProfile mapKvStore (sampleState []) "k" "v").2
        "k" "").2.1 = "v" ∧
    (GetDeviceProfile mapKvStore
        (PutDeviceProfileBatch mapKvStore (sampleState [])
          ["a", "b"] ["x", "y"]).2 "a" "").2.1 = "x" ∧
    (GetDeviceProfile mapKvStore
        (PutDeviceProfileBatch mapKvStore (sampleState [])
          ["a", "b"] ["x", "y"]).2 "b" "").2.1 = "y" :=
  ⟨congrArg (fun p => p.2.1)
      ((put_get_roundtrip (sampleState []) [] rfl "k" "v" "" "a" "b" "x"
        "y").1.2),
   ((put_get_roundtrip (sampleState []) [] rfl "k" "v" "" "a" "b" "x"
      "y").2 (by decide)).2.2.1,
   ((put_get_roundtrip (sampleState []) [] rfl "k" "v" "" "a" "b" "x"
      "y").2 (by decide)).2.2.2.2⟩

end DeviceProfile
